import Mathlib

/-!
Shallow embedding of the Bubbels monitor baby tracker (repository
RianneSH, files babytracker_7.py and babytracker_5.py).

The embedding keeps the structure of the Python source: each Streamlit
callback or helper becomes a pure Lean function over explicit state.
Wall-clock instants are modelled as second counts, spreadsheet cells as
an explicit cell type, pandas missing values as Option, and Python
exceptions as Except.  The two revisions are embedded separately where
their code differs.
-/

namespace Bubbels

/-- Stock status colours shown by the dashboard banner and the Voorraad
tab: groen means ok, oranje means low, rood means critical. -/
inductive Kleur where
  | groen
  | oranje
  | rood
deriving DecidableEq

/-- Threshold classification used identically in babytracker_7.py line
614 and babytracker_5.py line 173: groen when val exceeds minv + 2,
otherwise oranje when val exceeds minv, otherwise rood. -/
def kleur (val minv : Int) : Kleur :=
  if val > minv + 2 then .groen
  else if val > minv then .oranje
  else .rood

/-- C1 counterexample: the claim lists the pair (8,5) as low, but the
code classifies it as ok (groen), because 8 > 5 + 2. -/
theorem kleur_8_5_not_low : kleur 8 5 = Kleur.groen ∧ kleur 8 5 ≠ Kleur.oranje := by
  decide

/-- C1 amended: for every integer pair the classification is rood
(critical) iff current is at most minimum, oranje (low) iff minimum <
current and current is at most minimum + 2, and groen (ok) iff current
exceeds minimum + 2; concretely (5,5) is critical, (6,5) and (7,5) are
low, and (8,5) and (9,5) are ok — (8,5) is not low. -/
theorem kleur_classification :
    (∀ val minv : Int,
      (kleur val minv = Kleur.rood ↔ val ≤ minv) ∧
      (kleur val minv = Kleur.oranje ↔ (minv < val ∧ val ≤ minv + 2)) ∧
      (kleur val minv = Kleur.groen ↔ minv + 2 < val)) ∧
    kleur 5 5 = Kleur.rood ∧ kleur 6 5 = Kleur.oranje ∧
    kleur 7 5 = Kleur.oranje ∧ kleur 8 5 = Kleur.groen ∧ kleur 9 5 = Kleur.groen := by
  refine ⟨fun val minv => ?_, by decide, by decide, by decide, by decide, by decide⟩
  unfold kleur
  split_ifs with h1 h2 <;> refine ⟨?_, ?_, ?_⟩ <;> simp <;> omega

/-! Inventory (Voorraad) model.

In babytracker_7.py the Actuele voorraad cell is first sent through
pandas to_numeric with coercion and fillna 0, so a cell is modelled as
an optional integer with none standing for a missing or non-numeric
value.  In babytracker_5.py the cell is used directly as an integer. -/

/-- One row of the Voorraad sheet as cached in memory by
babytracker_7.py; none models a missing or non-numeric cell. -/
structure VoorraadRow where
  productnaam : String
  actueleVoorraad : Option Int
  minimumVoorraad : Option Int
deriving DecidableEq

/-- pandas to_numeric with coercion followed by fillna 0, as applied to
the looked-up stock cell in babytracker_7.py line 146. -/
def toNumFill0 : Option Int → Int
  | some z => z
  | none => 0

/-- The in-memory clamp step of babytracker_7.py line 148: every row of
the whole table whose stock is negative is set to 0 (a NaN cell compares
false and is left alone). -/
def clampNeg (r : VoorraadRow) : VoorraadRow :=
  match r.actueleVoorraad with
  | some z => if z < 0 then { r with actueleVoorraad := some 0 } else r
  | none => r

/-- Outcome of update_voorraad in babytracker_7.py: the new in-memory
table, the value written to the store cell (none when no write was
issued), and which user message was shown. -/
structure VoorraadOutcome where
  voorraad : List VoorraadRow
  write : Option Int
  warned : Bool
  errored : Bool
deriving DecidableEq

/-- update_voorraad of babytracker_7.py lines 137 to 154.  The sheetOk
flag models sheet_voorraad being available.  The masked assignment adds
hoeveelheid to every row whose Productnaam matches, the clamp then zeros
every negative stock cell in the table, and the value of the first
matching row is written to the store. -/
def update_voorraad (sheetOk : Bool) (voorraad : List VoorraadRow)
    (productnaam : String) (hoeveelheid : Int) : VoorraadOutcome :=
  if voorraad.isEmpty || !sheetOk then
    { voorraad := voorraad, write := none, warned := true, errored := false }
  else if !(voorraad.any (fun r => r.productnaam == productnaam)) then
    { voorraad := voorraad, write := none, warned := false, errored := true }
  else
    { voorraad := (voorraad.map (fun r =>
        if r.productnaam == productnaam then
          { r with actueleVoorraad := some (toNumFill0 r.actueleVoorraad + hoeveelheid) }
        else r)).map clampNeg,
      write := (((voorraad.map (fun r =>
        if r.productnaam == productnaam then
          { r with actueleVoorraad := some (toNumFill0 r.actueleVoorraad + hoeveelheid) }
        else r)).map clampNeg).filter
          (fun r => r.productnaam == productnaam)).head?.map
            (fun r => toNumFill0 r.actueleVoorraad),
      warned := false, errored := false }

/-- One row of the Voorraad sheet as cached by babytracker_5.py, where
the stock cell is used directly as an integer. -/
structure VoorraadRow5 where
  productnaam : String
  actueleVoorraad : Int
  minimumVoorraad : Int
deriving DecidableEq

/-- update_voorraad of babytracker_5.py lines 83 to 92.  There is no
clamp and no check that the product exists: the masked assignment is a
no-op for an absent product and the subsequent index lookup on the empty
mask raises IndexError, modelled as the error branch of Except.  On
success the result is the updated table and the value written to the
store. -/
def update_voorraad5 (sheetOk : Bool) (voorraad : List VoorraadRow5)
    (productnaam : String) (hoeveelheid : Int) :
    Except String (List VoorraadRow5 × Option Int) :=
  if voorraad.isEmpty || !sheetOk then .ok (voorraad, none)
  else
    let updated := voorraad.map (fun r =>
      if r.productnaam == productnaam then
        { r with actueleVoorraad := r.actueleVoorraad + hoeveelheid }
      else r)
    match updated.filter (fun r => r.productnaam == productnaam) with
    | [] => .error "IndexError"
    | r :: _ => .ok (updated, some r.actueleVoorraad)

/-- Helper: the pandas clamp if-expression equals an Int max. -/
theorem clamp_eq_max (z : Int) : (if z < 0 then (0 : Int) else z) = max 0 z := by
  rcases lt_or_le z 0 with h | h
  · simp [h, max_eq_left h.le]
  · simp [not_lt.mpr h, max_eq_right h]

/-- C2 counterexample: in babytracker_5.py the stock is not clamped;
starting from 2 and applying delta minus 5 stores minus 3, not
max 0 (2 - 5) = 0, and the stored stock is negative. -/
theorem update_voorraad5_negative :
    update_voorraad5 true [⟨"Luiers", 2, 1⟩] "Luiers" (-5)
      = .ok ([⟨"Luiers", -3, 1⟩], some (-3)) ∧
    ¬ ((-3 : Int) = max 0 (2 + (-5))) ∧ (-3 : Int) < 0 :=
  ⟨rfl, by decide, by decide⟩

/-- C2 amended: in babytracker_7.py, for every table in which the
product occurs, update_voorraad sets every matching row to
max 0 (old + delta) (rows of other products merely have any negative
stock clamped in memory), so every matching row of the result is
nonnegative; babytracker_5.py performs no clamping and can store a
negative stock. -/
theorem update_voorraad7_clamps (v : List VoorraadRow) (p : String) (d : Int)
    (hp : v.any (fun r => r.productnaam == p) = true) :
    ((update_voorraad true v p d).voorraad
        = v.map (fun r =>
            if r.productnaam == p then
              { r with actueleVoorraad := some (max 0 (toNumFill0 r.actueleVoorraad + d)) }
            else clampNeg r)) ∧
    (∀ r ∈ (update_voorraad true v p d).voorraad, r.productnaam = p →
        ∃ m : Int, r.actueleVoorraad = some m ∧ 0 ≤ m) := by
  have hne : v.isEmpty = false := by
    cases v with
    | nil => simp at hp
    | cons a l => rfl
  have hcond : (v.isEmpty || !true) = false := by simp [hne]
  have hcond2 : (!(v.any fun r => r.productnaam == p)) = false := by simp [hp]
  have hmap : (update_voorraad true v p d).voorraad
      = v.map (fun r =>
          if r.productnaam == p then
            { r with actueleVoorraad := some (max 0 (toNumFill0 r.actueleVoorraad + d)) }
          else clampNeg r) := by
    have hstep : (update_voorraad true v p d).voorraad
        = (v.map (fun r =>
            if r.productnaam == p then
              { r with actueleVoorraad := some (toNumFill0 r.actueleVoorraad + d) }
            else r)).map clampNeg := by
      unfold update_voorraad
      rw [hcond, if_neg (by simp), hcond2, if_neg (by simp)]
    rw [hstep, List.map_map]
    congr 1
    funext r
    simp only [Function.comp_apply]
    by_cases hb : (r.productnaam == p) = true
    · rw [if_pos hb, if_pos hb]
      have hred : clampNeg { r with actueleVoorraad := some (toNumFill0 r.actueleVoorraad + d) }
          = if toNumFill0 r.actueleVoorraad + d < 0 then
              { r with actueleVoorraad := some (0 : Int) }
            else { r with actueleVoorraad := some (toNumFill0 r.actueleVoorraad + d) } := rfl
      rw [hred]
      rcases lt_or_le (toNumFill0 r.actueleVoorraad + d) 0 with h | h
      · rw [if_pos h, max_eq_left h.le]
      · rw [if_neg (not_lt.mpr h), max_eq_right h]
    · rw [if_neg hb, if_neg hb]
  refine ⟨hmap, ?_⟩
  intro r hr hname
  rw [hmap] at hr
  rcases List.mem_map.mp hr with ⟨r0, _, hr0⟩
  by_cases hb : (r0.productnaam == p) = true
  · rw [if_pos hb] at hr0
    exact ⟨max 0 (toNumFill0 r0.actueleVoorraad + d), by rw [← hr0], le_max_left 0 _⟩
  · rw [if_neg hb] at hr0
    exfalso
    have hcn : (clampNeg r0).productnaam = r0.productnaam := by
      unfold clampNeg
      cases r0.actueleVoorraad with
      | none => rfl
      | some z =>
        by_cases hz : z < 0
        · simp [hz]
        · simp [hz]
    apply hb
    rw [← hr0] at hname
    rw [hcn] at hname
    exact beq_iff_eq.mpr hname

/-- C2 witness: with the single row Luiers at stock 2 and delta minus 5,
babytracker_7 clamps the stock to max 0 (2 - 5) = 0. -/
theorem update_voorraad7_clamps_witness :
    ((update_voorraad true [⟨"Luiers", some 2, some 1⟩] "Luiers" (-5)).voorraad
        = [⟨"Luiers", some 2, some 1⟩].map (fun r =>
            if r.productnaam == "Luiers" then
              { r with actueleVoorraad := some (max 0 (toNumFill0 r.actueleVoorraad + (-5))) }
            else clampNeg r)) ∧
    (∀ r ∈ (update_voorraad true [⟨"Luiers", some 2, some 1⟩] "Luiers" (-5)).voorraad,
        r.productnaam = "Luiers" → ∃ m : Int, r.actueleVoorraad = some m ∧ 0 ≤ m) :=
  update_voorraad7_clamps [⟨"Luiers", some 2, some 1⟩] "Luiers" (-5) (by decide)

/-- C3 counterexample: in babytracker_5.py there is no product-not-found
check; with a nonempty table that does not contain the product, the
masked update is a no-op and the subsequent positional lookup on the
empty mask raises IndexError instead of reporting an error and doing
nothing. -/
theorem update_voorraad5_missing_raises :
    update_voorraad5 true [⟨"Melk", 3, 1⟩] "Luiers" (-1) = .error "IndexError" :=
  rfl

/-- C3 amended: in babytracker_7.py, when the product does not occur in
the nonempty inventory table, update_voorraad reports an error, issues
no store write, and leaves the in-memory table unchanged (and, being a
total function, does not raise); in babytracker_5.py the same call
raises IndexError. -/
theorem update_voorraad7_missing_noop (v : List VoorraadRow) (p : String) (d : Int)
    (hne : v.isEmpty = false)
    (hp : (v.any fun r => r.productnaam == p) = false) :
    update_voorraad true v p d
      = { voorraad := v, write := none, warned := false, errored := true } := by
  unfold update_voorraad
  rw [show (v.isEmpty || !true) = false by simp [hne], if_neg (by simp),
    hp, Bool.not_false, if_pos rfl]

/-- C3 witness: a table with only Melk, updated for Luiers, is returned
unchanged with an error and no write. -/
theorem update_voorraad7_missing_noop_witness :
    update_voorraad true [⟨"Melk", some 3, some 1⟩] "Luiers" (-1)
      = { voorraad := [⟨"Melk", some 3, some 1⟩], write := none,
          warned := false, errored := true } :=
  update_voorraad7_missing_noop [⟨"Melk", some 3, some 1⟩] "Luiers" (-1) rfl (by decide)

/-! Numeric field parsing by the data loader. -/

/-- Value of a digit string read left to right. -/
def digitsVal (l : List Char) : Nat :=
  l.foldl (fun acc c => 10 * acc + (c.toNat - ('0').toNat)) 0

/-- An exact decimal number: the value is num divided by 10 to the exp.
This represents the float produced by pandas to_numeric exactly, since
the parsed cells are finite decimal strings. -/
structure DecNum where
  num : Int
  exp : Nat
deriving DecidableEq

/-- The rational value of a decimal number. -/
def DecNum.toRat (d : DecNum) : ℚ := (d.num : ℚ) / 10 ^ d.exp

/-- Model of pandas to_numeric with coercion on one cell already turned
into a string: an optional sign, then digits with at most one decimal
point (at least one digit overall); anything else coerces to none. -/
def parseDecimalString (s : String) : Option DecNum :=
  let cs := s.toList
  let sign : Int := match cs with
    | '-' :: _ => -1
    | _ => 1
  let body : List Char := match cs with
    | '-' :: r => r
    | '+' :: r => r
    | r => r
  match body.splitOn '.' with
  | [ip] =>
    if !ip.isEmpty && ip.all Char.isDigit then some ⟨sign * digitsVal ip, 0⟩
    else none
  | [ip, fp] =>
    if (!ip.isEmpty || !fp.isEmpty) && ip.all Char.isDigit && fp.all Char.isDigit then
      some ⟨sign * (digitsVal ip * 10 ^ fp.length + digitsVal fp), fp.length⟩
    else none
  | _ => none

/-- The str.replace step of babytracker_7.py line 122: every comma in
the cell is replaced by a point. -/
def commaToPoint (s : String) : String :=
  String.mk (s.toList.map (fun c => if c = ',' then '.' else c))

/-- One numeric cell through the babytracker_7.py loader (lines 117 to
123): comma to point, coerce, fill failures with 0. -/
def load_numeric_field (raw : String) : DecNum :=
  (parseDecimalString (commaToPoint raw)).getD ⟨0, 0⟩

/-- One Hoeveelheid cell through the babytracker_5.py loader (line 72):
coercion and fill 0, but no comma replacement; the other numeric fields
are not parsed at all in that revision. -/
def load_numeric_field5 (raw : String) : DecNum :=
  (parseDecimalString raw).getD ⟨0, 0⟩

/-- C4 counterexample: the babytracker_5.py loader does not replace the
decimal comma, so the cell 3,3 coerces to the default 0, whose value is
not 3.3. -/
theorem load_numeric_field5_comma_zero :
    load_numeric_field5 "3,3" = ⟨0, 0⟩ ∧
    DecNum.toRat ⟨0, 0⟩ = 0 ∧ ¬ ((0 : ℚ) = 33 / 10) := by
  refine ⟨by decide, by norm_num [DecNum.toRat], by norm_num⟩

/-- C4 amended: the babytracker_7.py loader replaces the decimal comma
with a point and coerces to a number, defaulting to 0 on failure and
never raising, for all four numeric fields; the cell 3,3 parses to the
decimal 33 over 10, that is 3.3, and abc parses to 0.  In
babytracker_5.py only Hoeveelheid is coerced and without comma
replacement, so 3,3 parses to 0 there. -/
theorem load_numeric_field7_parses :
    load_numeric_field "3,3" = ⟨33, 1⟩ ∧
    DecNum.toRat ⟨33, 1⟩ = 33 / 10 ∧
    load_numeric_field "abc" = ⟨0, 0⟩ ∧
    DecNum.toRat ⟨0, 0⟩ = 0 ∧
    commaToPoint "3,3" = "3.3" ∧
    (∀ s : String, parseDecimalString (commaToPoint s) = none →
        load_numeric_field s = ⟨0, 0⟩) ∧
    (∀ (s : String) (d : DecNum), parseDecimalString (commaToPoint s) = some d →
        load_numeric_field s = d) ∧
    load_numeric_field5 "3,3" = ⟨0, 0⟩ := by
  refine ⟨by decide, by norm_num [DecNum.toRat], by decide, by norm_num [DecNum.toRat],
    by decide, ?_, ?_, by decide⟩
  · intro s h
    unfold load_numeric_field
    rw [h]
    rfl
  · intro s d h
    unfold load_numeric_field
    rw [h]
    rfl

/-- C4 witness: the cell 1,25 goes through the comma replacement and
parses to the decimal 125 over 100. -/
theorem load_numeric_field7_parses_witness :
    load_numeric_field "1,25" = ⟨125, 2⟩ :=
  load_numeric_field7_parses.2.2.2.2.2.2.1 "1,25" ⟨125, 2⟩ (by decide)

/-! Timestamp parsing by the data loader. -/

/-- A raw timestamp cell after the pandas to_datetime attempt: missing
(empty or NA), unparseable text, or a parsed wall-clock value (in
minutes) that is either naive or carries a utc offset in minutes. -/
inductive RawTime where
  | missing
  | unparseable
  | parsed (wall : Int) (tz : Option Int)
deriving DecidableEq

/-- A pandas timestamp: a wall-clock value in minutes and an optional
utc offset in minutes (none means naive). -/
structure Timestamp where
  wall : Int
  tz : Option Int
deriving DecidableEq

/-- pandas tz_localize: stamps a zone onto a naive timestamp without
moving the wall clock. -/
def tz_localize (off : Int) (t : Timestamp) : Timestamp :=
  { t with tz := some off }

/-- pandas tz_convert: moves an aware timestamp to another zone,
shifting the wall clock so that the instant is unchanged; on a naive
timestamp it is not applied by either pipeline. -/
def tz_convert (off : Int) (t : Timestamp) : Timestamp :=
  match t.tz with
  | some o => { wall := t.wall - o + off, tz := some off }
  | none => t

/-- parse_time of babytracker_7.py lines 96 to 109: missing and
unparseable cells become NaT (none); a naive parse is localized to the
configured zone, an aware parse is converted to it. -/
def parse_time (localOff : Int) : RawTime → Option Timestamp
  | .missing => none
  | .unparseable => none
  | .parsed w none => some (tz_localize localOff ⟨w, none⟩)
  | .parsed w (some o) => some (tz_convert localOff ⟨w, some o⟩)

/-- The Starttijd pipeline of babytracker_5.py line 70: to_datetime
without coercion (an unparseable cell raises), then tz_localize to UTC
(an aware input raises TypeError), then tz_convert to the configured
zone. -/
def parse_starttijd5 (localOff : Int) : RawTime → Except String (Option Timestamp)
  | .missing => .ok none
  | .unparseable => .error "ParserError"
  | .parsed w none => .ok (some (tz_convert localOff (tz_localize 0 ⟨w, none⟩)))
  | .parsed _ (some _) => .error "TypeError"

/-- C5 counterexample: in babytracker_5.py an unparseable Starttijd cell
raises instead of becoming a null timestamp, and a naive cell is
localized to UTC and then shifted by the zone offset, so with offset 60
the wall clock 720 becomes 780; babytracker_7.py keeps it at 720. -/
theorem parse_starttijd5_raises :
    parse_starttijd5 60 .unparseable = .error "ParserError" ∧
    parse_starttijd5 60 (.parsed 720 none) = .ok (some ⟨780, some 60⟩) ∧
    ¬ ((780 : Int) = 720) ∧
    parse_time 60 (.parsed 720 none) = some ⟨720, some 60⟩ :=
  ⟨rfl, rfl, by decide, rfl⟩

/-- C5 amended: the babytracker_7.py parse_time never raises and sends
missing and unparseable cells to the null timestamp; a naive input is
localized to the configured zone keeping its wall clock, and an aware
input is converted to that zone keeping its instant.  In
babytracker_5.py an unparseable Starttijd raises and naive inputs are
treated as UTC rather than as the configured zone. -/
theorem parse_time_normalizes :
    (∀ off : Int, parse_time off .missing = none) ∧
    (∀ off : Int, parse_time off .unparseable = none) ∧
    (∀ off w : Int, parse_time off (.parsed w none) = some ⟨w, some off⟩) ∧
    (∀ off w o : Int, parse_time off (.parsed w (some o)) = some ⟨w - o + off, some off⟩) ∧
    (∀ (off w o : Int) (t : Timestamp), parse_time off (.parsed w (some o)) = some t →
        t.tz = some off ∧ t.wall - off = w - o) := by
  refine ⟨fun _ => rfl, fun _ => rfl, fun _ _ => rfl, fun _ _ _ => rfl, ?_⟩
  intro off w o t h
  rw [show parse_time off (.parsed w (some o))
      = some (⟨w - o + off, some off⟩ : Timestamp) from rfl] at h
  injection h with h2
  subst h2
  refine ⟨rfl, ?_⟩
  show w - o + off - off = w - o
  omega

/-- C5 witness: the aware input with wall 700 and offset 0, converted to
offset 60, lands in the configured zone with its instant preserved. -/
theorem parse_time_normalizes_witness :
    (⟨760, some 60⟩ : Timestamp).tz = some 60 ∧
    (⟨760, some 60⟩ : Timestamp).wall - 60 = 700 - 0 :=
  parse_time_normalizes.2.2.2.2 60 700 0 ⟨760, some 60⟩ rfl

/-! Records and the session timer of babytracker_7.py.

Wall-clock instants are modelled as seconds (Nat).  A spreadsheet cell
in an appended row is a string, an integer, or a timestamp rendered at
minute precision by strftime, modelled as the minute count. -/

/-- One cell of a row appended to the BabyRecords sheet. -/
inductive Cell where
  | str (v : String)
  | int (v : Int)
  | time (minutesSinceEpoch : Nat)
deriving DecidableEq

/-- Python format of a natural number with format spec 03: pad with
zeros to a minimum width of three digits (longer numbers unaffected). -/
def zeroPad3 (n : Nat) : String :=
  let s := toString n
  if s.length < 3 then String.mk (List.replicate (3 - s.length) '0') ++ s else s

/-- The id generated by add_record in babytracker_7.py line 163 and by
the save handlers of babytracker_5.py: the letter R followed by the
zero-padded successor of the cached record count. -/
def nieuwe_id (recordCount : Nat) : String := "R" ++ zeroPad3 (recordCount + 1)

/-- Result of add_record: the appended row if the append happened, the
returned success flag, and whether an error message was shown. -/
structure AddOutcome where
  appended : Option (List Cell)
  success : Bool
  errored : Bool
deriving DecidableEq

/-- add_record of babytracker_7.py lines 159 to 173.  recordCount is
the length of the cached in-memory record table (which this function
does not modify); sheetOk models sheet_baby being available and
appendOk whether the store append call succeeds (its exception is
caught and turned into a false return). -/
def add_record (sheetOk : Bool) (recordCount : Nat) (record_type : String)
    (values : List Cell) (appendOk : Bool) : AddOutcome :=
  if !sheetOk then { appended := none, success := false, errored := true }
  else if appendOk then
    { appended := some (.str (nieuwe_id recordCount) :: .str record_type :: values),
      success := true, errored := false }
  else { appended := none, success := false, errored := true }

/-- The process-local sleep session: wall-clock start time in seconds. -/
structure SlaapSessie where
  start_time : Nat
deriving DecidableEq

/-- The process-local feeding session: wall-clock start time in seconds
and the selected breast side. -/
structure VoedingSessie where
  start_time : Nat
  borst : String
deriving DecidableEq

/-- start_slaap_callback of babytracker_7.py lines 342 to 345: creates
a session only when none is active; there is no else branch, so a
second start is silently ignored.  Returns the new session state and
whether a warning was shown. -/
def start_slaap_callback (state : Option SlaapSessie) (now : Nat) :
    Option SlaapSessie × Bool :=
  match state with
  | none => (some ⟨now⟩, false)
  | some s => (some s, false)

/-- start_voeding of babytracker_7.py lines 422 to 430: a second start
shows a warning and returns; otherwise a session with start time and
breast side is created. -/
def start_voeding (state : Option VoedingSessie) (now : Nat) (borstzijde : String) :
    Option VoedingSessie × Bool :=
  match state with
  | some s => (some s, true)
  | none => (some ⟨now, borstzijde⟩, false)

/-- The rounding performed by the Python builtin round on the sleep
duration in babytracker_7.py line 363: nearest integer, ties to the
nearest even integer, modelled exactly on the rationals. -/
def pythonRound (q : ℚ) : Int :=
  if q - ⌊q⌋ < 1 / 2 then ⌊q⌋
  else if 1 / 2 < q - ⌊q⌋ then ⌊q⌋ + 1
  else if ⌊q⌋ % 2 = 0 then ⌊q⌋ else ⌊q⌋ + 1

/-- Modelled from the spec: the round-half-up rule that the claim
names, the floor of q + 1/2, used only for comparison with the
rounding the code performs. -/
def roundHalfUp (q : ℚ) : Int := ⌊q + 1 / 2⌋

/-- Result of a stop callback: the session slot, the note field, the
row appended to the store (none when the append did not happen), the
append success, and whether the no-session warning was shown. -/
structure StopOutcome (σ : Type) where
  session : Option σ
  opmerking : String
  appended : Option (List Cell)
  success : Bool
  warned : Bool
deriving DecidableEq

/-- stop_slaap_callback of babytracker_7.py lines 347 to 371: with no
active session it warns and changes nothing; otherwise it computes the
duration in fractional minutes, appends a Slaap row whose Hoeveelheid
is the rounded duration, and then unconditionally clears the session
and the note field, whether or not the append succeeded. -/
def stop_slaap_callback (state : Option SlaapSessie) (opmerking : String)
    (now : Nat) (recordCount : Nat) (sheetOk appendOk : Bool) :
    StopOutcome SlaapSessie :=
  match state with
  | none =>
    { session := none, opmerking := opmerking, appended := none,
      success := false, warned := true }
  | some s =>
    let o := add_record sheetOk recordCount "Slaap"
      [ .time (s.start_time / 60), .time (now / 60),
        .int (pythonRound (((now : ℚ) - (s.start_time : ℚ)) / 60)),
        .str opmerking,
        .str "", .str "", .str "", .str "", .str "", .str "", .str "", .str "",
        .str "", .str "" ] appendOk
    { session := none, opmerking := "", appended := o.appended,
      success := o.success, warned := false }

/-- stop_voeding of babytracker_7.py lines 432 to 460: with no active
session it warns and changes nothing; otherwise it appends a Voeding
row whose Hoeveelheid is left empty (the duration is carried by the
start and end time cells) and then unconditionally clears the session
and the note field. -/
def stop_voeding (state : Option VoedingSessie) (opmerking : String)
    (now : Nat) (recordCount : Nat) (sheetOk appendOk : Bool) :
    StopOutcome VoedingSessie :=
  match state with
  | none =>
    { session := none, opmerking := opmerking, appended := none,
      success := false, warned := true }
  | some s =>
    let o := add_record sheetOk recordCount "Voeding"
      [ .time (s.start_time / 60), .time (now / 60), .str "", .str opmerking,
        .str "", .str s.borst, .str "", .str "", .str "Borst",
        .str "", .str "", .str "", .str "" ] appendOk
    { session := none, opmerking := "", appended := o.appended,
      success := o.success, warned := false }

/-- C6 counterexample: a sleep session stopped after 150 seconds lasts
2.5 minutes; the code commits Hoeveelheid 2 (round half to even), while
the round-half-up rule named by the claim gives 3. -/
theorem stop_slaap_not_half_up :
    ((stop_slaap_callback (some ⟨0⟩) "" 150 0 true true).appended.map
        (fun row => row[4]?)) = some (some (.int 2)) ∧
    roundHalfUp ((150 : ℚ) / 60) = 3 ∧ ¬ ((2 : Int) = 3) := by
  refine ⟨?_, ?_, by decide⟩
  · have h1 : (stop_slaap_callback (some ⟨0⟩) "" 150 0 true true).appended.map
        (fun row => row[4]?)
        = some (some (Cell.int (pythonRound ((((150 : ℕ) : ℚ) - ((0 : ℕ) : ℚ)) / 60)))) := rfl
    rw [h1]
    have h2 : (((150 : ℕ) : ℚ) - ((0 : ℕ) : ℚ)) / 60 = 5 / 2 := by norm_num
    rw [h2]
    have h3 : pythonRound (5 / 2) = 2 := by norm_num [pythonRound]
    rw [h3]
  · have h4 : (150 : ℚ) / 60 = 5 / 2 := by norm_num
    rw [h4]
    have h5 : (5 : ℚ) / 2 + 1 / 2 = 3 := by norm_num
    unfold roundHalfUp
    rw [h5]
    exact_mod_cast Int.floor_intCast 3

/-- C6 amended: stopping a running session computes the duration now
minus start in fractional minutes and commits a record; for Slaap the
Hoeveelheid is the duration rounded to whole minutes with round half to
even (the Python builtin round), so 90 seconds give 2 and 84 seconds
(1.4 minutes) give 1; for Voeding the Hoeveelheid is left empty and the
duration is carried by the start and end time cells; the session then
becomes idle.  Stopping while idle warns and changes nothing. -/
theorem stop_session_commits :
    (∀ (start now count : Nat) (opm : String),
      (stop_slaap_callback (some ⟨start⟩) opm now count true true).session = none ∧
      (stop_slaap_callback (some ⟨start⟩) opm now count true true).appended
        = some [ .str (nieuwe_id count), .str "Slaap",
            .time (start / 60), .time (now / 60),
            .int (pythonRound (((now : ℚ) - (start : ℚ)) / 60)),
            .str opm, .str "", .str "", .str "", .str "", .str "", .str "",
            .str "", .str "", .str "", .str "" ]) ∧
    (∀ (opm : String) (now count : Nat) (ok1 ok2 : Bool),
      stop_slaap_callback none opm now count ok1 ok2
        = { session := none, opmerking := opm, appended := none,
            success := false, warned := true }) ∧
    (∀ (start now count : Nat) (opm borst : String),
      (stop_voeding (some ⟨start, borst⟩) opm now count true true).session = none ∧
      ((stop_voeding (some ⟨start, borst⟩) opm now count true true).appended.map
          (fun row => row[4]?)) = some (some (.str "")) ∧
      ((stop_voeding (some ⟨start, borst⟩) opm now count true true).appended.map
          (fun row => (row[2]?, row[3]?)))
        = some (some (.time (start / 60)), some (.time (now / 60)))) ∧
    (∀ (opm : String) (now count : Nat) (ok1 ok2 : Bool),
      stop_voeding none opm now count ok1 ok2
        = { session := none, opmerking := opm, appended := none,
            success := false, warned := true }) ∧
    pythonRound ((90 : ℚ) / 60) = 2 ∧ pythonRound ((84 : ℚ) / 60) = 1 := by
  refine ⟨fun start now count opm => ⟨rfl, rfl⟩,
    fun opm now count ok1 ok2 => rfl,
    fun start now count opm borst => ⟨rfl, rfl, rfl⟩,
    fun opm now count ok1 ok2 => rfl, ?_, ?_⟩
  · norm_num [pythonRound]
  · norm_num [pythonRound]

/-- C7 counterexample: a second start of a sleep session is silently
ignored: the session is unchanged but no warning is shown, unlike the
feeding start which does warn. -/
theorem start_slaap_no_warning :
    start_slaap_callback (some ⟨0⟩) 100 = (some ⟨0⟩, false) ∧
    ¬ ((start_slaap_callback (some ⟨0⟩) 100).2 = true) ∧
    start_voeding (some ⟨0, "Links"⟩) 100 "Rechts" = (some ⟨0, "Links"⟩, true) :=
  ⟨rfl, by decide, rfl⟩

/-- C7 amended: for both activity kinds, calling start while a session
is running is a no-op: the stored session, its start time and metadata
are unchanged and no new session is created; the feeding start shows a
warning, but the sleep start is silent.  Starting while idle creates
the session. -/
theorem start_running_noop :
    (∀ (s : SlaapSessie) (now : Nat),
      start_slaap_callback (some s) now = (some s, false)) ∧
    (∀ (v : VoedingSessie) (now : Nat) (b : String),
      start_voeding (some v) now b = (some v, true)) ∧
    (∀ now : Nat, start_slaap_callback none now = (some ⟨now⟩, false)) ∧
    (∀ (now : Nat) (b : String), start_voeding none now b = (some ⟨now, b⟩, false)) :=
  ⟨fun _ _ => rfl, fun _ _ _ => rfl, fun _ => rfl, fun _ _ => rfl⟩

/-- C8: the id generated by add_record is the letter R followed by the
cached record count plus one, zero-padded to at least three digits; it
depends only on the cached count (which add_record does not change), so
two appends against the same cache produce the same id — a display
sequence number, not a unique identifier. -/
theorem add_record_id_format :
    (∀ (count : Nat) (t : String) (v : List Cell),
      (add_record true count t v true).appended
        = some (.str ("R" ++ zeroPad3 (count + 1)) :: .str t :: v)) ∧
    (∀ (count : Nat) (t1 t2 : String) (v1 v2 : List Cell),
      ((add_record true count t1 v1 true).appended.map (fun row => row.head?))
        = ((add_record true count t2 v2 true).appended.map (fun row => row.head?))) ∧
    nieuwe_id 0 = "R001" ∧ nieuwe_id 11 = "R012" ∧
    nieuwe_id 122 = "R123" ∧ nieuwe_id 999 = "R1000" :=
  ⟨fun _ _ _ => rfl, fun _ _ _ _ _ => rfl, by decide, by decide, by decide, by decide⟩

/-- C9: in babytracker_7.py both stop callbacks clear the session and
the note field unconditionally, even when the record append fails at
the store level: the append return value is ignored, so the timed
session data is lost on a failed append. -/
theorem stop_clears_session_on_failed_append :
    (∀ (start now count : Nat) (opm : String) (ok1 ok2 : Bool),
      (stop_slaap_callback (some ⟨start⟩) opm now count ok1 ok2).session = none ∧
      (stop_slaap_callback (some ⟨start⟩) opm now count ok1 ok2).opmerking = "") ∧
    (∀ (start now count : Nat) (opm : String),
      (stop_slaap_callback (some ⟨start⟩) opm now count true false).appended = none ∧
      (stop_slaap_callback (some ⟨start⟩) opm now count true false).success = false) ∧
    (∀ (start now count : Nat) (opm borst : String) (ok1 ok2 : Bool),
      (stop_voeding (some ⟨start, borst⟩) opm now count ok1 ok2).session = none ∧
      (stop_voeding (some ⟨start, borst⟩) opm now count ok1 ok2).opmerking = "") ∧
    (∀ (start now count : Nat) (opm borst : String),
      (stop_voeding (some ⟨start, borst⟩) opm now count true false).appended = none ∧
      (stop_voeding (some ⟨start, borst⟩) opm now count true false).success = false) := by
  refine ⟨fun start now count opm ok1 ok2 => ?_,
    fun start now count opm => ⟨rfl, ?_⟩,
    fun start now count opm borst ok1 ok2 => ?_,
    fun start now count opm borst => ⟨rfl, ?_⟩⟩
  · exact ⟨rfl, rfl⟩
  · rfl
  · exact ⟨rfl, rfl⟩
  · rfl

/-- Result of the Luiers save handler: the appended record row, the new
in-memory inventory table, and the store write issued for it. -/
structure LuierSaveOutcome where
  appended : Option (List Cell)
  voorraad : List VoorraadRow
  voorraadWrite : Option Int
deriving DecidableEq

/-- The Luiers tab save handler of babytracker_7.py lines 533 to 558:
append the diaper record, and only when add_record reports success,
decrement the Luiers inventory item by one through update_voorraad. -/
def luier_save (voorraad : List VoorraadRow) (recordCount : Nat)
    (tijdstip : Nat) (typ opm : String) (sheetOk appendOk : Bool) : LuierSaveOutcome :=
  let o := add_record sheetOk recordCount "Luier"
    [ .time (tijdstip / 60), .str "", .str "", .str opm, .str typ,
      .str "", .str "", .str "", .str "", .str "", .str "", .str "", .str "" ] appendOk
  if o.success then
    { appended := o.appended,
      voorraad := (update_voorraad sheetOk voorraad "Luiers" (-1)).voorraad,
      voorraadWrite := (update_voorraad sheetOk voorraad "Luiers" (-1)).write }
  else
    { appended := o.appended, voorraad := voorraad, voorraadWrite := none }

/-- C10: the Luiers decrement is issued iff the record append returned
success: on a failed append (or unavailable sheet) the inventory table
and the store are untouched, and on success the handler performs
exactly the update_voorraad decrement by one. -/
theorem luier_decrement_iff_success :
    (∀ (v : List VoorraadRow) (count tijd : Nat) (typ opm : String),
      (luier_save v count tijd typ opm true false).voorraad = v ∧
      (luier_save v count tijd typ opm true false).voorraadWrite = none) ∧
    (∀ (v : List VoorraadRow) (count tijd : Nat) (typ opm : String) (ok2 : Bool),
      (luier_save v count tijd typ opm false ok2).voorraad = v ∧
      (luier_save v count tijd typ opm false ok2).voorraadWrite = none) ∧
    (∀ (v : List VoorraadRow) (count tijd : Nat) (typ opm : String),
      (luier_save v count tijd typ opm true true).voorraad
        = (update_voorraad true v "Luiers" (-1)).voorraad ∧
      (luier_save v count tijd typ opm true true).voorraadWrite
        = (update_voorraad true v "Luiers" (-1)).write) :=
  ⟨fun _ _ _ _ _ => ⟨rfl, rfl⟩, fun _ _ _ _ _ _ => ⟨rfl, rfl⟩,
   fun _ _ _ _ _ => ⟨rfl, rfl⟩⟩

end Bubbels
